import Mathlib

/-!
Shallow embedding of the medical-trip booking API core
(`med_services/serializers.py` and `med_services/views.py`):
consultation creation with doctor/profile resolution, the booking
validator (availability window + confirmed double-booking), the
consultation status transition machine, the review gate, and the
keyword-matching triage stub.

Database rows are records in explicit list-valued stores; the Django
ORM lookups (`objects.get`, `objects.filter(...).exists()`) become
`List.find?` / `List.any`.  `DoctorAvailability` and `DoctorReview`
model classes are not part of the provided sources, so their record
shapes are taken from the fields the serializers and the spec name
(doctor, date, start_time, end_time; consultation, stars, comment);
all logic proved about is translated from the serializer code.
-/

deriving instance DecidableEq for Except

namespace MedServices

/-- Consultation status enumeration (`Consultation.STATUS_CHOICES`). -/
inductive Status where
  | pending
  | confirmed
  | completed
  | cancelled
  deriving DecidableEq, Repr

/-- The authenticated actor (`request.user`): identity plus the
administrative flag `is_staff`. -/
structure AuthUser where
  id : Nat
  is_staff : Bool
  deriving DecidableEq, Repr

/-- `UserProfile` row: id and owning account (`user`). -/
structure UserProfile where
  id : Nat
  user : Nat
  deriving DecidableEq, Repr

/-- `ChinaDoctor` row: id and the `is_available` flag (the only
fields the consultation logic reads). -/
structure ChinaDoctor where
  id : Nat
  is_available : Bool
  deriving DecidableEq, Repr

/-- A timestamp already decomposed the way the validator decomposes a
`datetime` (`.date()` and `.time()`): a calendar date index and a
time-of-day index. -/
structure DateTime where
  date : Nat
  time : Nat
  deriving DecidableEq, Repr

/-- Modelled from the spec: `DoctorAvailability` row — doctor
reference, calendar date, half-open window `[start_time, end_time)`.
The model class is outside the provided sources; the field names come
from its serializer and the queryset filter in
`ConsultationSerializer.validate`. -/
structure DoctorAvailability where
  doctor : Nat
  date : Nat
  start_time : Nat
  end_time : Nat
  deriving DecidableEq, Repr

/-- `Consultation` row (the fields the core logic reads/writes). -/
structure Consultation where
  id : Nat
  user_profile : Nat
  doctor : Nat
  symptoms_description : String
  status : Status
  scheduled_at : Option DateTime
  notes : String
  deriving DecidableEq, Repr

/-- Modelled from the spec: `DoctorReview` row — one-to-one attachment
to a consultation with a star rating and optional comment.  The model
class is outside the provided sources; fields come from its serializer. -/
structure DoctorReview where
  consultation : Nat
  stars : Nat
  comment : String
  deriving DecidableEq, Repr

/-- The persistent store: one list per table. -/
structure DB where
  doctors : List ChinaDoctor
  profiles : List UserProfile
  consultations : List Consultation
  availabilities : List DoctorAvailability
  reviews : List DoctorReview
  deriving DecidableEq, Repr

/-- Validation failures raised by `ConsultationSerializer`
(`serializers.ValidationError` with the corresponding message). -/
inductive VErr where
  | doctorNotFound
  | doctorUnavailable
  | profileNotFound
  | ownershipMismatch
  | noProfileForActor
  | symptomsTooShort
  | outsideAvailability
  | slotTaken
  | statusForbidden
  | illegalTransition (current target : Status)
  | consultationNotFound
  deriving DecidableEq, Repr

/-- Validation failures raised by `DoctorReviewSerializer.validate`. -/
inductive RErr where
  | notCompleted
  | alreadyReviewed
  | reviewForbidden
  deriving DecidableEq, Repr

/-! ### Booking validator (`ConsultationSerializer.validate`, scheduling part) -/

/-- One availability row matching the queryset filter
`doctor=doctor, date=schedule_date, start_time__lte=schedule_time,
end_time__gt=schedule_time`. -/
def windowContains (a : DoctorAvailability) (doctorId d t : Nat) : Prop :=
  a.doctor = doctorId ∧ a.date = d ∧ a.start_time ≤ t ∧ t < a.end_time

instance (a : DoctorAvailability) (doctorId d t : Nat) :
    Decidable (windowContains a doctorId d t) := by
  unfold windowContains; infer_instance

/-- `DoctorAvailability.objects.filter(...).exists()`. -/
def availabilityExists (db : DB) (doctorId d t : Nat) : Bool :=
  db.availabilities.any (fun a => decide (windowContains a doctorId d t))

/-- `Consultation.objects.filter(doctor=doctor, status='confirmed',
scheduled_at=scheduled_at).exists()`. -/
def confirmedSlotTaken (db : DB) (doctorId : Nat) (s : DateTime) : Bool :=
  db.consultations.any
    (fun c => decide (c.doctor = doctorId ∧ c.status = Status.confirmed ∧
                      c.scheduled_at = some s))

/-- Scheduling validation: availability-window check, then
confirmed-double-booking check, in the order of the source. -/
def schedulingValidation (db : DB) (doctor : ChinaDoctor) (s : DateTime) :
    Except VErr Unit :=
  if availabilityExists db doctor.id s.date s.time = false then
    Except.error VErr.outsideAvailability
  else if confirmedSlotTaken db doctor.id s = true then
    Except.error VErr.slotTaken
  else
    Except.ok ()

/-! ### Consultation creation (`validate` create branch and `create`) -/

/-- Writable input of a create request.  `status` is a writable field
of the serializer (it is listed in `Meta.fields` and not in
`Meta.read_only_fields`), hence part of the caller-controlled data. -/
structure CreateData where
  doctor_id : Nat
  user_profile_id : Option Nat
  symptoms_description : String
  status : Option Status
  scheduled_at : Option DateTime
  notes : String
  deriving DecidableEq, Repr

/-- Python truthiness of the optional integer `user_profile_id`
(`if user_profile_id:`): `None` and `0` are falsy. -/
def truthyId : Option Nat → Bool
  | none => false
  | some n => n != 0

/-- Profile resolution with ownership enforcement, as in the
create branch of `ConsultationSerializer.validate` (the `create`
method re-runs the same resolution). -/
def resolveProfile (db : DB) (u : AuthUser) (data : CreateData) :
    Except VErr UserProfile :=
  if truthyId data.user_profile_id then
    match db.profiles.find? (fun p => p.id == data.user_profile_id.getD 0) with
    | none => Except.error VErr.profileNotFound
    | some up =>
      if u.is_staff = false ∧ up.user ≠ u.id then
        Except.error VErr.ownershipMismatch
      else
        Except.ok up
  else
    match db.profiles.find? (fun p => p.user == u.id) with
    | none => Except.error VErr.noProfileForActor
    | some up => Except.ok up

/-- Object-level validation on create (`self.instance is None` branch):
resolve doctor, then profile, then — only when a schedule time is
supplied — the booking validator.  On success returns the data with
`user_profile_id` set to the resolved profile. -/
def validateCreate (db : DB) (u : AuthUser) (data : CreateData) :
    Except VErr CreateData :=
  match db.doctors.find? (fun d => d.id == data.doctor_id) with
  | none => Except.error VErr.doctorNotFound
  | some doctor =>
    if doctor.is_available = false then
      Except.error VErr.doctorUnavailable
    else
      match resolveProfile db u data with
      | Except.error e => Except.error e
      | Except.ok up =>
        match data.scheduled_at with
        | none => Except.ok { data with user_profile_id := some up.id }
        | some s =>
          match schedulingValidation db doctor s with
          | Except.error e => Except.error e
          | Except.ok _ => Except.ok { data with user_profile_id := some up.id }

/-- Drop leading whitespace characters. -/
def dropLeadingSpace : List Char → List Char
  | [] => []
  | c :: cs => if c.isWhitespace then dropLeadingSpace cs else c :: cs

/-- Python `str.strip()`: drop whitespace from both ends. -/
def stripChars (l : List Char) : List Char :=
  (dropLeadingSpace ((dropLeadingSpace l).reverse)).reverse

/-- Field-level check `validate_symptoms_description`:
`len(value.strip()) < 10` is rejected. -/
def validateSymptoms (s : String) : Except VErr Unit :=
  if (stripChars s.data).length < 10 then Except.error VErr.symptomsTooShort
  else Except.ok ()

/-- `ConsultationSerializer.create`: re-resolve doctor and profile,
then persist the record.  The stored status is the caller-supplied
status when present, otherwise the model default `pending`. -/
def createRecord (db : DB) (u : AuthUser) (data : CreateData) (newId : Nat) :
    Except VErr (Consultation × DB) :=
  match db.doctors.find? (fun d => d.id == data.doctor_id) with
  | none => Except.error VErr.doctorNotFound
  | some doctor =>
    match resolveProfile db u data with
    | Except.error e => Except.error e
    | Except.ok up =>
      let c : Consultation :=
        { id := newId
          user_profile := up.id
          doctor := doctor.id
          symptoms_description := data.symptoms_description
          status := data.status.getD Status.pending
          scheduled_at := data.scheduled_at
          notes := data.notes }
      Except.ok (c, { db with consultations := db.consultations ++ [c] })

/-- Full creation path: field validation, object-level validation,
then persistence. -/
def createPipeline (db : DB) (u : AuthUser) (data : CreateData) (newId : Nat) :
    Except VErr (Consultation × DB) :=
  match validateSymptoms data.symptoms_description with
  | Except.error e => Except.error e
  | Except.ok _ =>
    match validateCreate db u data with
    | Except.error e => Except.error e
    | Except.ok data' => createRecord db u data' newId

/-- Status of the consultation a successful create returned. -/
def createdStatus (r : Except VErr (Consultation × DB)) : Option Status :=
  match r with
  | Except.ok (c, _) => some c.status
  | Except.error _ => none

/-! ### Status transition engine (`validate` update branch and `update`) -/

/-- Writable input of an update request; a missing key is `none`
(`'status' in data` becomes `status.isSome`). -/
structure UpdateData where
  status : Option Status
  notes : Option String
  scheduled_at : Option DateTime
  deriving DecidableEq, Repr

/-- The `allowed` transition table of the update branch. -/
def allowedTransitions : Status → List Status
  | Status.pending => [Status.confirmed, Status.cancelled]
  | Status.confirmed => [Status.completed, Status.cancelled]
  | Status.completed => []
  | Status.cancelled => []

/-- Object-level validation on update (`self.instance is not None and
'status' in data`): staff gate first, then idempotent same-status
accept, then the transition table. -/
def validateUpdate (u : AuthUser) (inst : Consultation) (data : UpdateData) :
    Except VErr Unit :=
  match data.status with
  | none => Except.ok ()
  | some target =>
    if u.is_staff = false then
      Except.error VErr.statusForbidden
    else if target = inst.status then
      Except.ok ()
    else if target ∈ allowedTransitions inst.status then
      Except.ok ()
    else
      Except.error (VErr.illegalTransition inst.status target)

/-- `ConsultationSerializer.update`: apply non-status fields, then the
status when supplied, and save. -/
def updateConsultation (inst : Consultation) (data : UpdateData) : Consultation :=
  let inst1 : Consultation :=
    { inst with
      notes := match data.notes with
        | some n => n
        | none => inst.notes
      scheduled_at := match data.scheduled_at with
        | some s => some s
        | none => inst.scheduled_at }
  match data.status with
  | some s => { inst1 with status := s }
  | none => inst1

/-- Replace the consultation with the given id in the store. -/
def replaceConsultation (l : List Consultation) (cid : Nat) (c' : Consultation) :
    List Consultation :=
  l.map (fun c => if c.id = cid then c' else c)

/-- The whole update request: look up the instance, validate, and on
success persist the updated record; the store is untouched on error. -/
def runUpdate (db : DB) (u : AuthUser) (cid : Nat) (data : UpdateData) :
    DB × Option VErr :=
  match db.consultations.find? (fun c => c.id == cid) with
  | none => (db, some VErr.consultationNotFound)
  | some inst =>
    match validateUpdate u inst data with
    | Except.error e => (db, some e)
    | Except.ok _ =>
      ({ db with consultations :=
          replaceConsultation db.consultations cid (updateConsultation inst data) },
       none)

/-- Status of the stored consultation with the given id. -/
def statusOf (db : DB) (cid : Nat) : Option Status :=
  (db.consultations.find? (fun c => c.id == cid)).map (fun c => c.status)

/-- Notes of the stored consultation with the given id. -/
def notesOf (db : DB) (cid : Nat) : Option String :=
  (db.consultations.find? (fun c => c.id == cid)).map (fun c => c.notes)

/-! ### Review gate (`DoctorReviewSerializer.validate`) -/

/-- `hasattr(consultation, 'review')`: the one-to-one reverse accessor
exists exactly when a review row references the consultation. -/
def hasReview (db : DB) (cid : Nat) : Bool :=
  db.reviews.any (fun r => r.consultation == cid)

/-- `consultation.user_profile.user`: the account owning the
consultation's profile. -/
def profileUserOf (db : DB) (pid : Nat) : Option Nat :=
  (db.profiles.find? (fun p => p.id == pid)).map (fun p => p.user)

/-- Review validation, in source order: completed status, then no
existing review, then ownership (staff bypasses). -/
def validateReview (db : DB) (u : AuthUser) (c : Consultation) :
    Except RErr Unit :=
  if c.status ≠ Status.completed then
    Except.error RErr.notCompleted
  else if hasReview db c.id then
    Except.error RErr.alreadyReviewed
  else if u.is_staff = false ∧ profileUserOf db c.user_profile ≠ some u.id then
    Except.error RErr.reviewForbidden
  else
    Except.ok ()

/-- The whole review-creation request: validate, then persist the
review; the store is untouched on error. -/
def createReview (db : DB) (u : AuthUser) (c : Consultation)
    (stars : Nat) (comment : String) : DB × Option RErr :=
  match validateReview db u c with
  | Except.error e => (db, some e)
  | Except.ok _ =>
    ({ db with reviews := db.reviews ++ [⟨c.id, stars, comment⟩] }, none)

/-! ### Keyword triage stub (`AITriageView._mock_ai_analysis`) -/

/-- Prefix test on character lists (the base of substring search). -/
def charsBegin : List Char → List Char → Bool
  | [], _ => true
  | _ :: _, [] => false
  | a :: as, b :: bs => a == b && charsBegin as bs

/-- Substring containment on character lists: the Python `in`
operator on strings. -/
def charsContain (needle : List Char) : List Char → Bool
  | [] => charsBegin needle []
  | b :: bs => charsBegin needle (b :: bs) || charsContain needle bs

/-- `keyword in hay` for strings. -/
def containsKw (hay kw : String) : Bool :=
  charsContain kw.data hay.data

/-- Python `str.lower()` on the basic-latin inputs the stub handles:
lowercase every character. -/
def strLower (s : String) : String :=
  ⟨s.data.map Char.toLower⟩

/-- `any(keyword in hay for keyword in kws)`. -/
def anyKeywordIn (hay : String) (kws : List String) : Bool :=
  kws.any (fun k => containsKw hay k)

/-- The triage answer: department, reason, confidence.  Confidence is
an exact rational standing for the decimal literal of the source. -/
structure TriageResult where
  suggested_department : String
  reason : String
  confidence : ℚ
  deriving DecidableEq, Repr

def cardiology_keywords : List String :=
  ["chest pain", "heart", "palpitation", "cardiac"]

def neurology_keywords : List String :=
  ["headache", "migraine", "dizzy", "seizure", "numbness"]

def orthopedics_keywords : List String :=
  ["joint pain", "back pain", "fracture", "bone", "arthritis"]

def gastroenterology_keywords : List String :=
  ["stomach", "abdominal", "nausea", "digestive", "bowel"]

def dermatology_keywords : List String :=
  ["skin", "rash", "acne", "itching", "dermatology"]

def ophthalmology_keywords : List String :=
  ["eye", "vision", "sight", "blind"]

def ent_keywords : List String :=
  ["ear", "nose", "throat", "hearing", "sinus"]

def cardiology_triage : TriageResult :=
  { suggested_department := "Cardiology"
    reason := "Based on your description of chest pain and cardiac symptoms, we recommend consultation with a cardiologist for proper evaluation."
    confidence := 0.85 }

def neurology_triage : TriageResult :=
  { suggested_department := "Neurology"
    reason := "Your symptoms suggest a neurological concern. A neurologist can help diagnose and treat conditions related to the nervous system."
    confidence := 0.80 }

def orthopedics_triage : TriageResult :=
  { suggested_department := "Orthopedics"
    reason := "Based on your musculoskeletal symptoms, an orthopedic specialist would be most appropriate for evaluation and treatment."
    confidence := 0.82 }

def gastroenterology_triage : TriageResult :=
  { suggested_department := "Gastroenterology"
    reason := "Your digestive symptoms indicate that a gastroenterologist consultation would be beneficial for proper diagnosis."
    confidence := 0.78 }

def dermatology_triage : TriageResult :=
  { suggested_department := "Dermatology"
    reason := "Your skin-related symptoms suggest consultation with a dermatologist for appropriate treatment."
    confidence := 0.83 }

def ophthalmology_triage : TriageResult :=
  { suggested_department := "Ophthalmology"
    reason := "Your vision-related symptoms require evaluation by an ophthalmologist."
    confidence := 0.86 }

def ent_triage : TriageResult :=
  { suggested_department := "ENT (Ear, Nose, Throat)"
    reason := "Based on your ENT-related symptoms, consultation with an ENT specialist is recommended."
    confidence := 0.81 }

def general_triage : TriageResult :=
  { suggested_department := "General Medicine"
    reason := "Based on your symptoms, we recommend starting with a general medicine consultation for initial evaluation and potential referral to a specialist if needed."
    confidence := 0.70 }

/-- `AITriageView._mock_ai_analysis`: lowercase the input, test the
keyword groups in source order, first match wins, default to general
medicine. -/
def mock_ai_analysis (symptoms : String) : TriageResult :=
  let symptoms_lower := strLower symptoms
  if anyKeywordIn symptoms_lower cardiology_keywords then cardiology_triage
  else if anyKeywordIn symptoms_lower neurology_keywords then neurology_triage
  else if anyKeywordIn symptoms_lower orthopedics_keywords then orthopedics_triage
  else if anyKeywordIn symptoms_lower gastroenterology_keywords then gastroenterology_triage
  else if anyKeywordIn symptoms_lower dermatology_keywords then dermatology_triage
  else if anyKeywordIn symptoms_lower ophthalmology_keywords then ophthalmology_triage
  else if anyKeywordIn symptoms_lower ent_keywords then ent_triage
  else general_triage

/-- The departments the stub can suggest. -/
def triageDepartments : List String :=
  ["Cardiology", "Neurology", "Orthopedics", "Gastroenterology",
   "Dermatology", "Ophthalmology", "ENT (Ear, Nose, Throat)", "General Medicine"]

/-! ### Concrete example data used to instantiate the theorems -/

def doctor1 : ChinaDoctor := ⟨1, true⟩

def profile1 : UserProfile := ⟨1, 10⟩

def patient : AuthUser := ⟨10, false⟩

def adminUser : AuthUser := ⟨1, true⟩

def window1 : DoctorAvailability := ⟨1, 5, 540, 720⟩

/-- A store with one available doctor, the patient's profile, and one
morning availability window; no consultations and no reviews. -/
def baseDB : DB :=
  { doctors := [doctor1]
    profiles := [profile1]
    consultations := []
    availabilities := [window1]
    reviews := [] }

/-- A stored consultation of the patient with the given status. -/
def consult (st : Status) : Consultation :=
  ⟨1, 1, 1, "persistent severe headaches", st, none, ""⟩

/-- `baseDB` holding one consultation with the given status. -/
def dbWith (st : Status) : DB := { baseDB with consultations := [consult st] }

/-- Create request supplying an explicit `status` of `confirmed`. -/
def dataConfirmed : CreateData :=
  { doctor_id := 1
    user_profile_id := none
    symptoms_description := "persistent severe headaches"
    status := some Status.confirmed
    scheduled_at := none
    notes := "" }

/-- The same create request with no caller-supplied status. -/
def dataDefault : CreateData := { dataConfirmed with status := none }

/-- An update supplying notes together with an illegal status change
(`pending → completed`). -/
def dataNoteIllegal : UpdateData :=
  { status := some Status.completed
    notes := some "doctor call notes"
    scheduled_at := none }

/-- An update supplying notes together with a legal status change
(`pending → confirmed`). -/
def dataNoteConfirm : UpdateData :=
  { status := some Status.confirmed
    notes := some "doctor call notes"
    scheduled_at := none }

/-- An entirely empty store. -/
def dbEmpty : DB := ⟨[], [], [], [], []⟩

/-- `baseDB` but with the doctor flagged unavailable. -/
def dbUnavail : DB := { baseDB with doctors := [⟨1, false⟩] }

/-- `baseDB` with an existing review for consultation 1. -/
def dbReviewed : DB := { baseDB with reviews := [⟨1, 5, "excellent doctor"⟩] }

/-! ### Helper lemmas -/

theorem availabilityExists_iff (db : DB) (doctorId d t : Nat) :
    availabilityExists db doctorId d t = true ↔
      ∃ a ∈ db.availabilities, windowContains a doctorId d t := by
  simp [availabilityExists, List.any_eq_true]

theorem confirmedSlotTaken_iff (db : DB) (doctorId : Nat) (s : DateTime) :
    confirmedSlotTaken db doctorId s = true ↔
      ∃ c ∈ db.consultations, c.doctor = doctorId ∧ c.status = Status.confirmed ∧
        c.scheduled_at = some s := by
  simp [confirmedSlotTaken, List.any_eq_true]

theorem validateCreate_status (db : DB) (u : AuthUser) (data data' : CreateData)
    (h : validateCreate db u data = Except.ok data') :
    data'.status = data.status := by
  unfold validateCreate at h
  split at h
  · simp at h
  · split at h
    · simp at h
    · split at h
      · simp at h
      · split at h
        · injection h with h2
          rw [← h2]
        · split at h
          · simp at h
          · injection h with h2
            rw [← h2]

theorem createRecord_status (db : DB) (u : AuthUser) (data : CreateData)
    (newId : Nat) (c : Consultation) (db' : DB)
    (h : createRecord db u data newId = Except.ok (c, db')) :
    c.status = data.status.getD Status.pending := by
  unfold createRecord at h
  split at h
  · simp at h
  · split at h
    · simp at h
    · simp at h
      rw [← h.1]

theorem find?_replaceConsultation (l : List Consultation) (cid : Nat)
    (c' : Consultation) (hid : c'.id = cid)
    (h : (l.find? (fun c => c.id == cid)).isSome = true) :
    (replaceConsultation l cid c').find? (fun c => c.id == cid) = some c' := by
  induction l with
  | nil => simp at h
  | cons a as ih =>
    by_cases ha : a.id = cid
    · simp [replaceConsultation, ha, hid]
    · have hb : (a.id == cid) = false := by simpa using ha
      simp only [replaceConsultation, List.map_cons, if_neg ha,
        List.find?_cons, hb] at *
      exact ih h

theorem runUpdate_ok (db : DB) (u : AuthUser) (cid : Nat) (data : UpdateData)
    (inst : Consultation)
    (hfind : db.consultations.find? (fun c => c.id == cid) = some inst)
    (hv : validateUpdate u inst data = Except.ok ()) :
    runUpdate db u cid data =
      ({ db with consultations :=
          replaceConsultation db.consultations cid (updateConsultation inst data) },
       none) := by
  unfold runUpdate
  simp only [hfind, hv]

theorem runUpdate_err (db : DB) (u : AuthUser) (cid : Nat) (data : UpdateData)
    (inst : Consultation) (e : VErr)
    (hfind : db.consultations.find? (fun c => c.id == cid) = some inst)
    (hv : validateUpdate u inst data = Except.error e) :
    runUpdate db u cid data = (db, some e) := by
  unfold runUpdate
  simp only [hfind, hv]

theorem validateUpdate_same (u : AuthUser) (inst : Consultation)
    (data : UpdateData) (hstaff : u.is_staff = true)
    (hst : data.status = some inst.status) :
    validateUpdate u inst data = Except.ok () := by
  unfold validateUpdate
  rw [hst]
  simp [hstaff]

theorem validateUpdate_nonstaff (u : AuthUser) (inst : Consultation)
    (data : UpdateData) (target : Status) (hstaff : u.is_staff = false)
    (hst : data.status = some target) :
    validateUpdate u inst data = Except.error VErr.statusForbidden := by
  unfold validateUpdate
  rw [hst]
  simp [hstaff]

theorem validateUpdate_illegal (u : AuthUser) (inst : Consultation)
    (data : UpdateData) (target : Status) (hstaff : u.is_staff = true)
    (hst : data.status = some target) (hne : target ≠ inst.status)
    (hnall : target ∉ allowedTransitions inst.status) :
    validateUpdate u inst data =
      Except.error (VErr.illegalTransition inst.status target) := by
  unfold validateUpdate
  rw [hst]
  simp [hstaff, hne, hnall]

theorem statusOf_replace (db : DB) (cid : Nat) (c' : Consultation)
    (hid : c'.id = cid)
    (hsome : (db.consultations.find? (fun c => c.id == cid)).isSome = true) :
    statusOf { db with consultations :=
        replaceConsultation db.consultations cid c' } cid = some c'.status := by
  show (List.find? (fun c => c.id == cid)
      (replaceConsultation db.consultations cid c')).map (fun c => c.status) =
    some c'.status
  rw [find?_replaceConsultation db.consultations cid c' hid hsome]
  rfl

theorem notesOf_replace (db : DB) (cid : Nat) (c' : Consultation)
    (hid : c'.id = cid)
    (hsome : (db.consultations.find? (fun c => c.id == cid)).isSome = true) :
    notesOf { db with consultations :=
        replaceConsultation db.consultations cid c' } cid = some c'.notes := by
  show (List.find? (fun c => c.id == cid)
      (replaceConsultation db.consultations cid c')).map (fun c => c.notes) =
    some c'.notes
  rw [find?_replaceConsultation db.consultations cid c' hid hsome]
  rfl

theorem updateConsultation_id (inst : Consultation) (data : UpdateData) :
    (updateConsultation inst data).id = inst.id := by
  cases hs : data.status <;> simp [updateConsultation, hs]

/-! ### Claims -/

/-- C1: the booking validator accepts a candidate time `s` for a
doctor iff some `DoctorAvailability` row for that doctor on `s`'s date
contains `s`'s time-of-day in its half-open window, and no confirmed
consultation of that doctor is scheduled exactly at `s`; failing the
first check yields the outside-availability error and failing only the
second yields the slot-taken error. -/
theorem claim_C1 (db : DB) (doctor : ChinaDoctor) (s : DateTime) :
    (schedulingValidation db doctor s = Except.ok () ↔
      ((∃ a ∈ db.availabilities, a.doctor = doctor.id ∧ a.date = s.date ∧
          a.start_time ≤ s.time ∧ s.time < a.end_time) ∧
       ¬ ∃ c ∈ db.consultations, c.doctor = doctor.id ∧
          c.status = Status.confirmed ∧ c.scheduled_at = some s)) ∧
    (schedulingValidation db doctor s = Except.error VErr.outsideAvailability ↔
      ¬ ∃ a ∈ db.availabilities, a.doctor = doctor.id ∧ a.date = s.date ∧
          a.start_time ≤ s.time ∧ s.time < a.end_time) ∧
    (schedulingValidation db doctor s = Except.error VErr.slotTaken ↔
      ((∃ a ∈ db.availabilities, a.doctor = doctor.id ∧ a.date = s.date ∧
          a.start_time ≤ s.time ∧ s.time < a.end_time) ∧
       ∃ c ∈ db.consultations, c.doctor = doctor.id ∧
          c.status = Status.confirmed ∧ c.scheduled_at = some s)) := by
  have hA := availabilityExists_iff db doctor.id s.date s.time
  have hC := confirmedSlotTaken_iff db doctor.id s
  unfold windowContains at hA
  rw [← hA, ← hC]
  cases hav : availabilityExists db doctor.id s.date s.time <;>
    cases hcf : confirmedSlotTaken db doctor.id s <;>
      simp [schedulingValidation, hav, hcf]

/-- C1 witness: at the concrete store, a time inside the window with
no confirmed conflict is accepted. -/
theorem claim_C1_witness :
    schedulingValidation baseDB doctor1 ⟨5, 600⟩ = Except.ok () :=
  (claim_C1 baseDB doctor1 ⟨5, 600⟩).1.mpr (by decide)

/-- C2 counterexample: a create request that supplies
`status = confirmed` succeeds and the persisted consultation has
status `confirmed`, not `pending`. -/
theorem claim_C2_counterexample :
    createdStatus (createPipeline baseDB patient dataConfirmed 1) =
        some Status.confirmed ∧
    createdStatus (createPipeline baseDB patient dataConfirmed 1) ≠
        some Status.pending := by
  decide

/-- C2 (amended): every consultation persisted through the creation
path **without a caller-supplied status** has status `pending` (the
model default); a caller-supplied status is persisted as given. -/
theorem claim_C2 (db : DB) (u : AuthUser) (data : CreateData) (newId : Nat)
    (hs : data.status = none) (c : Consultation) (db' : DB)
    (h : createPipeline db u data newId = Except.ok (c, db')) :
    c.status = Status.pending := by
  unfold createPipeline at h
  cases hsym : validateSymptoms data.symptoms_description <;> rw [hsym] at h
  · simp at h
  · cases hval : validateCreate db u data <;> rw [hval] at h
    · simp at h
    · have h' : createRecord db u ‹CreateData› newId = Except.ok (c, db') := h
      have h1 := createRecord_status db u ‹CreateData› newId c db' h'
      have h2 := validateCreate_status db u data ‹CreateData› hval
      rw [h1, h2, hs]
      rfl

/-- C2 witness: the same concrete request without a status is created
with status `pending`. -/
theorem claim_C2_witness :
    (consult Status.pending).status = Status.pending :=
  claim_C2 baseDB patient dataDefault 1 rfl
    (consult Status.pending) (dbWith Status.pending) (by decide)

/-- C3: a status-change attempt whose (current, target) pair is
outside the allowed transition table with target ≠ current always
fails and leaves the store unchanged; an administrative actor gets the
illegal-transition error (a non-administrative one the forbidden
error).  Terminal states have an empty allowed set, so no transition
out of `completed` or `cancelled` ever succeeds. -/
theorem claim_C3 (db : DB) (u : AuthUser) (cid : Nat) (data : UpdateData)
    (inst : Consultation) (target : Status)
    (hfind : db.consultations.find? (fun c => c.id == cid) = some inst)
    (hst : data.status = some target)
    (hne : target ≠ inst.status)
    (hnall : target ∉ allowedTransitions inst.status) :
    (runUpdate db u cid data).1 = db ∧
    (u.is_staff = true →
      (runUpdate db u cid data).2 =
        some (VErr.illegalTransition inst.status target)) ∧
    (u.is_staff = false →
      (runUpdate db u cid data).2 = some VErr.statusForbidden) := by
  refine ⟨?_, fun hstaff => ?_, fun hstaff => ?_⟩
  · cases hstaff : u.is_staff
    · rw [runUpdate_err db u cid data inst _ hfind
        (validateUpdate_nonstaff u inst data target hstaff hst)]
    · rw [runUpdate_err db u cid data inst _ hfind
        (validateUpdate_illegal u inst data target hstaff hst hne hnall)]
  · rw [runUpdate_err db u cid data inst _ hfind
      (validateUpdate_illegal u inst data target hstaff hst hne hnall)]
  · rw [runUpdate_err db u cid data inst _ hfind
      (validateUpdate_nonstaff u inst data target hstaff hst)]

/-- C3 witness: an administrator attempting `completed → confirmed`
on a completed consultation fails with the illegal-transition error
and the store is unchanged. -/
theorem claim_C3_witness :
    (runUpdate (dbWith Status.completed) adminUser 1 dataNoteConfirm).1 =
        dbWith Status.completed ∧
    (runUpdate (dbWith Status.completed) adminUser 1 dataNoteConfirm).2 =
        some (VErr.illegalTransition Status.completed Status.confirmed) := by
  have h := claim_C3 (dbWith Status.completed) adminUser 1 dataNoteConfirm
    (consult Status.completed) Status.confirmed (by decide) rfl
    (by decide) (by decide)
  exact ⟨h.1, h.2.1 rfl⟩

/-- C4: every status change requested by a non-administrative actor on
an existing consultation fails with the forbidden error — whatever the
(current, target) pair — and the store is unchanged; in particular a
non-administrative actor never observes the illegal-transition error,
since the permission check precedes the legality check. -/
theorem claim_C4 (db : DB) (u : AuthUser) (cid : Nat) (data : UpdateData)
    (inst : Consultation)
    (hfind : db.consultations.find? (fun c => c.id == cid) = some inst)
    (hstaff : u.is_staff = false)
    (hst : data.status.isSome = true) :
    runUpdate db u cid data = (db, some VErr.statusForbidden) := by
  obtain ⟨target, htgt⟩ := Option.isSome_iff_exists.mp hst
  exact runUpdate_err db u cid data inst _ hfind
    (validateUpdate_nonstaff u inst data target hstaff htgt)

/-- C4 witness: a non-administrative actor attempting a legal
transition (`pending → confirmed`) still fails with the forbidden
error. -/
theorem claim_C4_witness :
    runUpdate (dbWith Status.pending) patient 1 dataNoteConfirm =
      (dbWith Status.pending, some VErr.statusForbidden) :=
  claim_C4 (dbWith Status.pending) patient 1 dataNoteConfirm
    (consult Status.pending) (by decide) rfl rfl

/-- C5: an administrative actor requesting a transition to the current
status always succeeds (idempotent accept) and the stored status is
unchanged, for every status including the terminal ones. -/
theorem claim_C5 (db : DB) (u : AuthUser) (cid : Nat) (data : UpdateData)
    (inst : Consultation)
    (hfind : db.consultations.find? (fun c => c.id == cid) = some inst)
    (hstaff : u.is_staff = true)
    (hst : data.status = some inst.status) :
    (runUpdate db u cid data).2 = none ∧
    statusOf (runUpdate db u cid data).1 cid = some inst.status ∧
    statusOf db cid = some inst.status := by
  have hid : inst.id = cid := by simpa using List.find?_some hfind
  have hcid : (updateConsultation inst data).id = cid := by
    rw [updateConsultation_id]; exact hid
  have hsm : (db.consultations.find? (fun c => c.id == cid)).isSome = true := by
    rw [hfind]; rfl
  have hr := runUpdate_ok db u cid data inst hfind
    (validateUpdate_same u inst data hstaff hst)
  refine ⟨?_, ?_, ?_⟩
  · rw [hr]
  · rw [hr]
    exact (statusOf_replace db cid (updateConsultation inst data) hcid hsm).trans
      (by simp [updateConsultation, hst])
  · unfold statusOf
    rw [hfind]
    rfl

/-- C5 witness: an administrator re-submitting `cancelled` on a
cancelled (terminal) consultation succeeds and the status stays
`cancelled`. -/
theorem claim_C5_witness :
    (runUpdate (dbWith Status.cancelled) adminUser 1
        { status := some Status.cancelled, notes := none, scheduled_at := none }).2 =
        none ∧
    statusOf (runUpdate (dbWith Status.cancelled) adminUser 1
        { status := some Status.cancelled, notes := none, scheduled_at := none }).1 1 =
        some Status.cancelled := by
  have h := claim_C5 (dbWith Status.cancelled) adminUser 1
    { status := some Status.cancelled, notes := none, scheduled_at := none }
    (consult Status.cancelled) (by decide) rfl rfl
  exact ⟨h.1, h.2.1⟩

/-- C6 counterexample: an update supplying notes together with an
illegal status change (`pending → completed`) is rejected as a whole —
the store, and in particular the notes, are unchanged — refuting the
claim that non-status fields are applied regardless of the outcome of
the status transition check. -/
theorem claim_C6_counterexample :
    runUpdate (dbWith Status.pending) adminUser 1 dataNoteIllegal =
      (dbWith Status.pending,
       some (VErr.illegalTransition Status.pending Status.completed)) ∧
    notesOf (dbWith Status.pending) 1 = some "" := by
  decide

/-- C6 (amended): non-status fields supplied alongside a status change
are applied exactly when the update validation succeeds (including the
idempotent same-status accept): on success the supplied notes are
persisted together with the status, and on any validation failure the
entire update is rejected and the store is unchanged. -/
theorem claim_C6 (db : DB) (u : AuthUser) (cid : Nat) (data : UpdateData)
    (inst : Consultation) (n : String)
    (hfind : db.consultations.find? (fun c => c.id == cid) = some inst)
    (hn : data.notes = some n) :
    ((runUpdate db u cid data).2 = none →
      notesOf (runUpdate db u cid data).1 cid = some n) ∧
    (∀ e, (runUpdate db u cid data).2 = some e →
      (runUpdate db u cid data).1 = db) := by
  have hid : inst.id = cid := by simpa using List.find?_some hfind
  have hcid : (updateConsultation inst data).id = cid := by
    rw [updateConsultation_id]; exact hid
  have hsm : (db.consultations.find? (fun c => c.id == cid)).isSome = true := by
    rw [hfind]; rfl
  refine ⟨fun hnone => ?_, fun e he => ?_⟩
  · cases hv : validateUpdate u inst data with
    | error e0 =>
      rw [runUpdate_err db u cid data inst e0 hfind hv] at hnone
      simp at hnone
    | ok u0 =>
      cases u0
      have hr := runUpdate_ok db u cid data inst hfind hv
      rw [hr]
      exact (notesOf_replace db cid (updateConsultation inst data) hcid hsm).trans
        (by cases hs : data.status <;> simp [updateConsultation, hs, hn])
  · cases hv : validateUpdate u inst data with
    | error e0 =>
      rw [runUpdate_err db u cid data inst e0 hfind hv]
    | ok u0 =>
      cases u0
      rw [runUpdate_ok db u cid data inst hfind hv] at he
      simp at he

/-- C6 witness: with a legal transition (`pending → confirmed`) the
supplied notes are persisted, and on the concrete failing update the
store is unchanged. -/
theorem claim_C6_witness :
    notesOf (runUpdate (dbWith Status.pending) adminUser 1 dataNoteConfirm).1 1 =
        some "doctor call notes" ∧
    (runUpdate (dbWith Status.pending) adminUser 1 dataNoteIllegal).1 =
        dbWith Status.pending := by
  constructor
  · exact (claim_C6 (dbWith Status.pending) adminUser 1 dataNoteConfirm
      (consult Status.pending) "doctor call notes" (by decide) rfl).1 (by decide)
  · exact (claim_C6 (dbWith Status.pending) adminUser 1 dataNoteIllegal
      (consult Status.pending) "doctor call notes" (by decide) rfl).2
      (VErr.illegalTransition Status.pending Status.completed) (by decide)

/-- C7: review creation checks run in order — completed status first,
then absence of a prior review, then ownership (administrators
bypass) — every failure leaves the store unchanged, and the number of
reviews per consultation never exceeds one. -/
theorem claim_C7 (db : DB) (u : AuthUser) (c : Consultation)
    (stars : Nat) (comment : String) :
    (c.status ≠ Status.completed →
      createReview db u c stars comment = (db, some RErr.notCompleted)) ∧
    (c.status = Status.completed → hasReview db c.id = true →
      createReview db u c stars comment = (db, some RErr.alreadyReviewed)) ∧
    (c.status = Status.completed → hasReview db c.id = false →
      u.is_staff = false → profileUserOf db c.user_profile ≠ some u.id →
      createReview db u c stars comment = (db, some RErr.reviewForbidden)) ∧
    (∀ e, (createReview db u c stars comment).2 = some e →
      (createReview db u c stars comment).1 = db) ∧
    (db.reviews.countP (fun r => r.consultation == c.id) ≤ 1 →
      (createReview db u c stars comment).1.reviews.countP
        (fun r => r.consultation == c.id) ≤ 1) := by
  refine ⟨fun hnc => ?_, fun hc hrev => ?_, fun hc hrev hstaff hown => ?_,
    fun e he => ?_, fun hle => ?_⟩
  · unfold createReview validateReview
    rw [if_pos hnc]
  · unfold createReview validateReview
    rw [if_neg (by simp [hc]), if_pos hrev]
  · unfold createReview validateReview
    rw [if_neg (by simp [hc]), if_neg (by simp [hrev]), if_pos ⟨hstaff, hown⟩]
  · unfold createReview at he ⊢
    cases hv : validateReview db u c with
    | error e0 => simp [hv]
    | ok u0 =>
      rw [hv] at he
      simp at he
  · unfold createReview
    cases hv : validateReview db u c with
    | error e0 => simpa using hle
    | ok u0 =>
      have hrev : hasReview db c.id = false := by
        unfold validateReview at hv
        split at hv
        · simp at hv
        · split at hv
          · simp at hv
          · rename_i h2
            simpa using h2
      have h0 : db.reviews.countP (fun r => r.consultation == c.id) = 0 := by
        rw [List.countP_eq_zero]
        intro a ha
        have hall : db.reviews.any (fun r => r.consultation == c.id) = false := hrev
        rw [List.any_eq_false] at hall
        exact hall a ha
      simp [List.countP_append, h0]

/-- C7 witness: a pending consultation is rejected as not completed;
a completed but already-reviewed one as already reviewed; a completed
unreviewed one by a non-owning non-administrator as forbidden — and in
each case the store is unchanged. -/
theorem claim_C7_witness :
    createReview baseDB patient (consult Status.pending) 5 "excellent doctor" =
        (baseDB, some RErr.notCompleted) ∧
    createReview dbReviewed patient (consult Status.completed) 5 "excellent doctor" =
        (dbReviewed, some RErr.alreadyReviewed) ∧
    createReview baseDB ⟨99, false⟩ (consult Status.completed) 5 "excellent doctor" =
        (baseDB, some RErr.reviewForbidden) := by
  refine ⟨?_, ?_, ?_⟩
  · exact (claim_C7 baseDB patient (consult Status.pending) 5
      "excellent doctor").1 (by decide)
  · exact (claim_C7 dbReviewed patient (consult Status.completed) 5
      "excellent doctor").2.1 rfl (by decide)
  · exact (claim_C7 baseDB ⟨99, false⟩ (consult Status.completed) 5
      "excellent doctor").2.2.1 rfl (by decide) rfl (by decide)

/-- C8: creation resolves in a fixed order — doctor lookup (not-found,
then unavailable), then the owning profile (not-found /
ownership-mismatch when a profile id is supplied in the Python-truthy
sense, no-profile when it is omitted), and only then the scheduling
validation — and the first failing step determines the error. -/
theorem claim_C8 (db : DB) (u : AuthUser) (data : CreateData) :
    (db.doctors.find? (fun d => d.id == data.doctor_id) = none →
      validateCreate db u data = Except.error VErr.doctorNotFound) ∧
    (∀ doctor, db.doctors.find? (fun d => d.id == data.doctor_id) = some doctor →
      doctor.is_available = false →
      validateCreate db u data = Except.error VErr.doctorUnavailable) ∧
    (∀ doctor e, db.doctors.find? (fun d => d.id == data.doctor_id) = some doctor →
      doctor.is_available = true → resolveProfile db u data = Except.error e →
      validateCreate db u data = Except.error e) ∧
    (truthyId data.user_profile_id = true →
      db.profiles.find? (fun p => p.id == data.user_profile_id.getD 0) = none →
      resolveProfile db u data = Except.error VErr.profileNotFound) ∧
    (∀ up, truthyId data.user_profile_id = true →
      db.profiles.find? (fun p => p.id == data.user_profile_id.getD 0) = some up →
      u.is_staff = false → up.user ≠ u.id →
      resolveProfile db u data = Except.error VErr.ownershipMismatch) ∧
    (truthyId data.user_profile_id = false →
      db.profiles.find? (fun p => p.user == u.id) = none →
      resolveProfile db u data = Except.error VErr.noProfileForActor) ∧
    (∀ doctor up s e,
      db.doctors.find? (fun d => d.id == data.doctor_id) = some doctor →
      doctor.is_available = true → resolveProfile db u data = Except.ok up →
      data.scheduled_at = some s → schedulingValidation db doctor s = Except.error e →
      validateCreate db u data = Except.error e) ∧
    (∀ doctor up,
      db.doctors.find? (fun d => d.id == data.doctor_id) = some doctor →
      doctor.is_available = true → resolveProfile db u data = Except.ok up →
      (data.scheduled_at = none ∨ ∃ s, data.scheduled_at = some s ∧
        schedulingValidation db doctor s = Except.ok ()) →
      validateCreate db u data =
        Except.ok { data with user_profile_id := some up.id }) := by
  refine ⟨fun hd => ?_, fun doctor hd hav => ?_, fun doctor e hd hav hp => ?_,
    fun ht hf => ?_, fun up ht hf hstaff hne => ?_, fun ht hf => ?_,
    fun doctor up s e hd hav hp hs hsv => ?_, fun doctor up hd hav hp hsch => ?_⟩
  · unfold validateCreate
    simp [hd]
  · unfold validateCreate
    simp [hd, hav]
  · unfold validateCreate
    simp [hd, hav, hp]
  · unfold resolveProfile
    simp [ht, hf]
  · unfold resolveProfile
    simp [ht, hf, hstaff, hne]
  · unfold resolveProfile
    simp [ht, hf]
  · unfold validateCreate
    simp [hd, hav, hp, hs, hsv]
  · unfold validateCreate
    rcases hsch with hs | ⟨s, hs, hsv⟩
    · simp [hd, hav, hp, hs]
    · simp [hd, hav, hp, hs, hsv]

/-- C8 witness: with an empty store the error is doctor-not-found;
with an unavailable doctor it is doctor-unavailable; with everything
resolvable and no schedule time, validation succeeds with the resolved
profile filled in. -/
theorem claim_C8_witness :
    validateCreate dbEmpty patient dataDefault =
        Except.error VErr.doctorNotFound ∧
    validateCreate dbUnavail patient dataDefault =
        Except.error VErr.doctorUnavailable ∧
    validateCreate baseDB patient dataDefault =
        Except.ok { dataDefault with user_profile_id := some 1 } := by
  refine ⟨?_, ?_, ?_⟩
  · exact (claim_C8 dbEmpty patient dataDefault).1 rfl
  · exact (claim_C8 dbUnavail patient dataDefault).2.1 ⟨1, false⟩ rfl rfl
  · exact (claim_C8 baseDB patient dataDefault).2.2.2.2.2.2.2 doctor1 profile1
      rfl rfl (by decide) (Or.inl rfl)

/-- C9: on an update the booking validator is never re-run — whatever
the supplied data (including a set or changed `scheduled_at`), the
update never fails with the outside-availability or slot-taken
error. -/
theorem claim_C9 (db : DB) (u : AuthUser) (cid : Nat) (data : UpdateData) :
    (runUpdate db u cid data).2 ≠ some VErr.outsideAvailability ∧
    (runUpdate db u cid data).2 ≠ some VErr.slotTaken := by
  cases hfind : db.consultations.find? (fun c => c.id == cid) with
  | none => simp [runUpdate, hfind]
  | some inst =>
    cases hs : data.status with
    | none => simp [runUpdate, validateUpdate, hfind, hs]
    | some target =>
      cases hstaff : u.is_staff with
      | false => simp [runUpdate, validateUpdate, hfind, hs, hstaff]
      | true =>
        by_cases heq : target = inst.status
        · simp [runUpdate, validateUpdate, hfind, hs, hstaff, heq]
        · by_cases hmem : target ∈ allowedTransitions inst.status
          · simp [runUpdate, validateUpdate, hfind, hs, hstaff, heq, hmem]
          · simp [runUpdate, validateUpdate, hfind, hs, hstaff, heq, hmem]

/-- C9 witness: a concrete update that changes `scheduled_at` to a
time far outside every availability window succeeds rather than being
rejected by the booking validator. -/
theorem claim_C9_witness :
    (runUpdate (dbWith Status.pending) patient 1
        { status := none, notes := none,
          scheduled_at := some ⟨9, 9999⟩ }).2 ≠
      some VErr.outsideAvailability :=
  (claim_C9 (dbWith Status.pending) patient 1
    { status := none, notes := none, scheduled_at := some ⟨9, 9999⟩ }).1

/-- C10: the keyword triage function is total and deterministic (it is
a function); for every input the suggested department is one of the
eight fixed departments, the reason is non-empty and the confidence
lies in [0.70, 0.86]; the keyword groups are tested in the fixed
source order on the lowercased input, the first matching group wins,
and when nothing matches the result is General Medicine with
confidence 0.70. -/
theorem claim_C10 (s : String) :
    (mock_ai_analysis s).suggested_department ∈ triageDepartments ∧
    (mock_ai_analysis s).reason ≠ "" ∧
    (0.70 : ℚ) ≤ (mock_ai_analysis s).confidence ∧
    (mock_ai_analysis s).confidence ≤ (0.86 : ℚ) ∧
    (anyKeywordIn (strLower s) cardiology_keywords = true →
      mock_ai_analysis s = cardiology_triage) ∧
    (anyKeywordIn (strLower s) cardiology_keywords = false →
      anyKeywordIn (strLower s) neurology_keywords = true →
      mock_ai_analysis s = neurology_triage) ∧
    (anyKeywordIn (strLower s) cardiology_keywords = false →
      anyKeywordIn (strLower s) neurology_keywords = false →
      anyKeywordIn (strLower s) orthopedics_keywords = true →
      mock_ai_analysis s = orthopedics_triage) ∧
    (anyKeywordIn (strLower s) cardiology_keywords = false →
      anyKeywordIn (strLower s) neurology_keywords = false →
      anyKeywordIn (strLower s) orthopedics_keywords = false →
      anyKeywordIn (strLower s) gastroenterology_keywords = true →
      mock_ai_analysis s = gastroenterology_triage) ∧
    (anyKeywordIn (strLower s) cardiology_keywords = false →
      anyKeywordIn (strLower s) neurology_keywords = false →
      anyKeywordIn (strLower s) orthopedics_keywords = false →
      anyKeywordIn (strLower s) gastroenterology_keywords = false →
      anyKeywordIn (strLower s) dermatology_keywords = true →
      mock_ai_analysis s = dermatology_triage) ∧
    (anyKeywordIn (strLower s) cardiology_keywords = false →
      anyKeywordIn (strLower s) neurology_keywords = false →
      anyKeywordIn (strLower s) orthopedics_keywords = false →
      anyKeywordIn (strLower s) gastroenterology_keywords = false →
      anyKeywordIn (strLower s) dermatology_keywords = false →
      anyKeywordIn (strLower s) ophthalmology_keywords = true →
      mock_ai_analysis s = ophthalmology_triage) ∧
    (anyKeywordIn (strLower s) cardiology_keywords = false →
      anyKeywordIn (strLower s) neurology_keywords = false →
      anyKeywordIn (strLower s) orthopedics_keywords = false →
      anyKeywordIn (strLower s) gastroenterology_keywords = false →
      anyKeywordIn (strLower s) dermatology_keywords = false →
      anyKeywordIn (strLower s) ophthalmology_keywords = false →
      anyKeywordIn (strLower s) ent_keywords = true →
      mock_ai_analysis s = ent_triage) ∧
    (anyKeywordIn (strLower s) cardiology_keywords = false →
      anyKeywordIn (strLower s) neurology_keywords = false →
      anyKeywordIn (strLower s) orthopedics_keywords = false →
      anyKeywordIn (strLower s) gastroenterology_keywords = false →
      anyKeywordIn (strLower s) dermatology_keywords = false →
      anyKeywordIn (strLower s) ophthalmology_keywords = false →
      anyKeywordIn (strLower s) ent_keywords = false →
      mock_ai_analysis s = general_triage) := by
  unfold mock_ai_analysis
  cases h1 : anyKeywordIn (strLower s) cardiology_keywords with
  | true =>
    simp [h1]
    exact ⟨by decide, by decide, by norm_num [cardiology_triage], by norm_num [cardiology_triage]⟩
  | false =>
  cases h2 : anyKeywordIn (strLower s) neurology_keywords with
  | true =>
    simp [h1, h2]
    exact ⟨by decide, by decide, by norm_num [neurology_triage], by norm_num [neurology_triage]⟩
  | false =>
  cases h3 : anyKeywordIn (strLower s) orthopedics_keywords with
  | true =>
    simp [h1, h2, h3]
    exact ⟨by decide, by decide, by norm_num [orthopedics_triage], by norm_num [orthopedics_triage]⟩
  | false =>
  cases h4 : anyKeywordIn (strLower s) gastroenterology_keywords with
  | true =>
    simp [h1, h2, h3, h4]
    exact ⟨by decide, by decide, by norm_num [gastroenterology_triage], by norm_num [gastroenterology_triage]⟩
  | false =>
  cases h5 : anyKeywordIn (strLower s) dermatology_keywords with
  | true =>
    simp [h1, h2, h3, h4, h5]
    exact ⟨by decide, by decide, by norm_num [dermatology_triage], by norm_num [dermatology_triage]⟩
  | false =>
  cases h6 : anyKeywordIn (strLower s) ophthalmology_keywords with
  | true =>
    simp [h1, h2, h3, h4, h5, h6]
    exact ⟨by decide, by decide, by norm_num [ophthalmology_triage], by norm_num [ophthalmology_triage]⟩
  | false =>
  cases h7 : anyKeywordIn (strLower s) ent_keywords with
  | true =>
    simp [h1, h2, h3, h4, h5, h6, h7]
    exact ⟨by decide, by decide, by norm_num [ent_triage], by norm_num [ent_triage]⟩
  | false =>
    simp [h1, h2, h3, h4, h5, h6, h7]
    exact ⟨by decide, by decide, by norm_num [general_triage], by norm_num [general_triage]⟩

/-- C10 witness: an input matching the first keyword group (note
"heart" also contains the ENT keyword "ear", yet cardiology wins) and
an input matching none. -/
theorem claim_C10_witness :
    mock_ai_analysis "heart" = cardiology_triage ∧
    mock_ai_analysis "unexplained fatigue" = general_triage := by
  constructor
  · exact (claim_C10 "heart").2.2.2.2.1 (by decide)
  · exact (claim_C10 "unexplained fatigue").2.2.2.2.2.2.2.2.2.2.2
      (by decide) (by decide) (by decide) (by decide) (by decide) (by decide)
      (by decide)

end MedServices
